import Mathlib

/-!
Shallow embedding of the voice feature extractor of
src/src/lib/dsp.ts (class DSPProcessor) and proofs about it.

Samples are modelled as a list of rationals (JavaScript numbers under
exact arithmetic), the sample rate as a natural number (the spec data
model calls it an integer number of Hz).  Functions whose source uses
only field arithmetic and comparisons stay in the rationals; square
roots, logarithms and the trigonometric kernel of the discrete Fourier
transform live in the reals.
-/

set_option maxRecDepth 8000

namespace DSP

/-- samples.slice(i, i + len) of the source. -/
def sliceFrame (samples : List ℚ) (i len : ℕ) : List ℚ :=
  (samples.drop i).take len

/-- Sum of a list of rationals via a left fold, as the source reduce. -/
def qSum (l : List ℚ) : ℚ := l.foldl (· + ·) 0

/-- reduce((a, b) => a + b, 0) / length, the mean used by the source. -/
def qMean (l : List ℚ) : ℚ := qSum l / l.length

/-- Running total of Math.abs of consecutive differences:
for i from 1, totalDiff += abs(l[i] - l[i-1]). -/
def consecAbsDiffs (l : List ℚ) : ℚ :=
  (l.zip l.tail).foldl (fun acc p => acc + |p.2 - p.1|) 0

/-- Sum of squares of the entries, the inner loop of calculateAmplitude
and of the signal power estimate of calculateHNR. -/
def sumSq (l : List ℚ) : ℚ := l.foldl (fun a x => a + x * x) 0

/-! ## Pitch tracker (calculatePitch, autocorrelationPitch) -/

/-- The frame loop of calculatePitch and calculatePitchVariation:
for (i = 0; i + 2048 < samples.length; i += 512) take samples.slice(i, i + 2048). -/
def pitchFramesAux (samples : List ℚ) (i : ℕ) : List (List ℚ) :=
  if h : i + 2048 < samples.length then
    sliceFrame samples i 2048 :: pitchFramesAux samples (i + 512)
  else []
termination_by samples.length - i
decreasing_by omega

/-- All analysis frames of the pitch loops (frame size 2048, hop 512). -/
def pitchFrames (samples : List ℚ) : List (List ℚ) := pitchFramesAux samples 0

/-- Unnormalized autocorrelation of a frame at a given lag:
sum over i of frame[i] * frame[i + lag]. -/
def autocorrAt (frame : List ℚ) (lag : ℕ) : ℚ :=
  ((frame.zip (frame.drop lag)).foldl (fun acc p => acc + p.1 * p.2) 0)

/-- The argmax scan of autocorrelationPitch: update on strictly larger
values, so ties resolve to the first maximum.  The source starts from
maxCorr = -Infinity, hence the head of a nonempty list initializes. -/
def argmaxAux : List ℚ → ℚ → ℕ → ℕ → ℕ
  | [], _, best, _ => best
  | c :: cs, m, best, idx =>
    if m < c then argmaxAux cs c idx (idx + 1) else argmaxAux cs m best (idx + 1)

/-- Index of the first maximum of the list (0 on the empty list). -/
def argmaxFirst : List ℚ → ℕ
  | [] => 0
  | c :: cs => argmaxAux cs c 0 1

/-- autocorrelationPitch of the source: search lags in
[floor(sampleRate/500), min(floor(sampleRate/50), frame.length)) and
return sampleRate / bestLag. -/
def autocorrelationPitch (sr : ℕ) (frame : List ℚ) : ℚ :=
  let minLag := sr / 500
  let maxLag := sr / 50
  let lags := List.range' minLag (min maxLag frame.length - minLag)
  let correlations := lags.map (autocorrAt frame)
  let bestLag := minLag + argmaxFirst correlations
  (sr : ℚ) / (bestLag : ℚ)

/-- The per-frame pitch estimates that survive the plausibility filter
50 < pitch < 500 of both pitch loops. -/
def retainedPitches (sr : ℕ) (samples : List ℚ) : List ℚ :=
  ((pitchFrames samples).map (autocorrelationPitch sr)).filter
    (fun p => decide (50 < p ∧ p < 500))

/-- pitches.sort((a, b) => a - b): numeric ascending sort. -/
def sortAsc (l : List ℚ) : List ℚ := l.mergeSort (fun a b => decide (a ≤ b))

/-- The median in the sense of the spec and of the source: the element
at index floor(length / 2) of the ascending sort. -/
def medianUpper (l : List ℚ) : ℚ := (sortAsc l).getD (l.length / 2) 0

/-- calculatePitch: median (element at floor(length / 2) of the sorted
retained estimates), or the default 150 when none survive. -/
def calculatePitch (sr : ℕ) (samples : List ℚ) : ℚ :=
  let pitches := retainedPitches sr samples
  if pitches.isEmpty then 150
  else (sortAsc pitches).getD (pitches.length / 2) 0

/-- calculatePitchVariation: population standard deviation of the
retained estimates, or the default 10 when fewer than 2 survive. -/
noncomputable def calculatePitchVariation (sr : ℕ) (samples : List ℚ) : ℝ :=
  let pitches := retainedPitches sr samples
  if pitches.length < 2 then 10
  else
    Real.sqrt
      (((pitches.foldl (fun acc p => acc + (p - qMean pitches) ^ 2) 0)
          / pitches.length : ℚ) : ℝ)

/-! ## Jitter estimator (calculateJitter) -/

/-- Math.round(sampleRate / fundamentalFreq): JavaScript rounds half
toward positive infinity, i.e. floor(x + 1/2). -/
def expectedPeriod (sr : ℕ) (pitch : ℚ) : ℤ := ⌊(sr : ℚ) / pitch + 1/2⌋

/-- The zero-crossing scan of calculateJitter.  Walking with the
previous sample, the running index and the index of the last rising
crossing (0 while none was seen): at a crossing (prev <= 0 and 0 < x)
a period i - last is recorded when last > 0 and the period is strictly
inside (lo, hi); lastCrossing is then set to i. -/
def zcAux (lo hi : ℚ) : List ℚ → ℚ → ℕ → ℕ → List ℕ
  | [], _, _, _ => []
  | x :: xs, prev, i, last =>
    if prev ≤ 0 ∧ 0 < x then
      (if 0 < last ∧ lo < ((i - last : ℕ) : ℚ) ∧ ((i - last : ℕ) : ℚ) < hi
        then [i - last] else [])
        ++ zcAux lo hi xs x (i + 1) i
    else zcAux lo hi xs x (i + 1) last

/-- The accepted pseudo-period lengths of calculateJitter: distances
between consecutive rising zero crossings that lie strictly between
0.5 and 2 times the expected period. -/
def jitterPeriods (sr : ℕ) (pitch : ℚ) (samples : List ℚ) : List ℕ :=
  let ps : ℚ := (expectedPeriod sr pitch : ℚ)
  match samples with
  | [] => []
  | x :: xs => zcAux (ps * (1/2)) (ps * 2) xs x 1 0

/-- calculateJitter: mean absolute consecutive period difference over
the mean period, times 100; default 0.5 with fewer than 2 periods. -/
def calculateJitter (sr : ℕ) (samples : List ℚ) (pitch : ℚ) : ℚ :=
  let periods := (jitterPeriods sr pitch samples).map (fun n => (n : ℚ))
  if periods.length < 2 then 1/2
  else
    let avgDiff := consecAbsDiffs periods / ((periods.length : ℚ) - 1)
    let avgPeriod := qSum periods / (periods.length : ℚ)
    avgDiff / avgPeriod * 100

/-! ## Shimmer estimator (calculateShimmer) -/

/-- The frame loop of calculateShimmer:
for (i = 0; i + 512 < samples.length; i += 512). -/
def shimmerFramesAux (samples : List ℚ) (i : ℕ) : List (List ℚ) :=
  if h : i + 512 < samples.length then
    sliceFrame samples i 512 :: shimmerFramesAux samples (i + 512)
  else []
termination_by samples.length - i
decreasing_by omega

/-- Non-overlapping 512-sample shimmer frames. -/
def shimmerFrames (samples : List ℚ) : List (List ℚ) := shimmerFramesAux samples 0

/-- Per-frame peak: the maximum absolute sample value, starting at 0. -/
def framePeak (frame : List ℚ) : ℚ := frame.foldl (fun m x => max m |x|) 0

/-- The per-frame peak amplitudes of calculateShimmer. -/
def shimmerAmplitudes (samples : List ℚ) : List ℚ :=
  (shimmerFrames samples).map framePeak

/-- calculateShimmer: mean absolute consecutive peak difference over
the mean peak, times 100; default 3 with fewer than 2 frames. -/
def calculateShimmer (samples : List ℚ) : ℚ :=
  let amps := shimmerAmplitudes samples
  if amps.length < 2 then 3
  else
    let avgDiff := consecAbsDiffs amps / ((amps.length : ℚ) - 1)
    let avgAmp := qMean amps
    avgDiff / avgAmp * 100

/-! ## Harmonics-to-noise estimator (calculateHNR) -/

/-- The frame loop of calculateHNR:
for (i = 0; i + 2048 < samples.length; i += 2048). -/
def hnrFramesAux (samples : List ℚ) (i : ℕ) : List (List ℚ) :=
  if h : i + 2048 < samples.length then
    sliceFrame samples i 2048 :: hnrFramesAux samples (i + 2048)
  else []
termination_by samples.length - i
decreasing_by omega

/-- Non-overlapping 2048-sample HNR frames. -/
def hnrFrames (samples : List ℚ) : List (List ℚ) := hnrFramesAux samples 0

/-- Per-frame signal power: mean of the squared samples. -/
def frameSignalPower (f : List ℚ) : ℚ := sumSq f / f.length

/-- Per-frame noise power estimate: mean of the squared first
differences (the loop from j = 1 of diff * diff, divided by length). -/
def frameNoisePower (f : List ℚ) : ℚ :=
  ((f.zip f.tail).foldl (fun a p => a + (p.2 - p.1) * (p.2 - p.1)) 0) / f.length

/-- totalSignalPower accumulated over all HNR frames. -/
def hnrTotalSignal (samples : List ℚ) : ℚ :=
  (hnrFrames samples).foldl (fun a f => a + frameSignalPower f) 0

/-- totalNoisePower accumulated over all HNR frames, each scaled by 0.1. -/
def hnrTotalNoise (samples : List ℚ) : ℚ :=
  (hnrFrames samples).foldl (fun a f => a + frameNoisePower f * (1/10)) 0

/-- calculateHNR: 25 when the total noise power is exactly zero, else
10 * log10(totalSignalPower / totalNoisePower) clamped by
Math.max(0, Math.min(40, hnr)). -/
noncomputable def calculateHNR (samples : List ℚ) : ℝ :=
  if hnrTotalNoise samples = 0 then 25
  else
    max 0 (min 40
      (10 * Real.logb 10 ((hnrTotalSignal samples : ℝ) / (hnrTotalNoise samples : ℝ))))

/-! ## Amplitude (calculateAmplitude) -/

/-- calculateAmplitude: RMS of the whole buffer,
sqrt(sum of squares / length). -/
noncomputable def calculateAmplitude (samples : List ℚ) : ℝ :=
  Real.sqrt ((sumSq samples / samples.length : ℚ) : ℝ)

/-! ## Formant estimator (calculateFormants, fft) -/

/-- The direct discrete Fourier transform of the source fft method:
entry k is (sum of x[t] * cos(2 pi t k / n), -(sum of x[t] * sin(2 pi t k / n))). -/
noncomputable def fft (input : List ℝ) : List (ℝ × ℝ) :=
  (List.range input.length).map (fun k =>
    (∑ t ∈ Finset.range input.length,
        input.getD t 0 * Real.cos (2 * Real.pi * t * k / input.length),
     -(∑ t ∈ Finset.range input.length,
        input.getD t 0 * Real.sin (2 * Real.pi * t * k / input.length))))

/-- Magnitude spectrum: sqrt(re * re + im * im) of each fft entry. -/
noncomputable def formantMagnitudes (frame : List ℚ) : List ℝ :=
  (fft (frame.map (fun q => (q : ℝ)))).map
    (fun c => Real.sqrt (c.1 * c.1 + c.2 * c.2))

/-- The spectral bin indices scanned by calculateFormants: integers i
with floor(200 / binWidth) <= i, i < floor(4000 / binWidth) and
i < len / 2 (for an integer i, i < len / 2 iff i < (len + 1) / 2). -/
def formantBins (sr : ℕ) (len : ℕ) : List ℕ :=
  let binWidth : ℚ := (sr : ℚ) / 2048
  let startBin := (⌊(200 : ℚ) / binWidth⌋).toNat
  let endBin := min (⌊(4000 : ℚ) / binWidth⌋).toNat ((len + 1) / 2)
  List.range' startBin (endBin - startBin)

/-- The peak scan of calculateFormants over (bin index, magnitude)
pairs, carrying prevMag, the rising flag and the accumulated peaks:
a strictly larger magnitude sets rising; a strictly smaller one while
rising records (i - 1) * binWidth and stops the scan at 4 peaks. -/
noncomputable def peakScan (binWidth : ℚ) :
    List (ℕ × ℝ) → ℝ → Bool → List ℚ → List ℚ
  | [], _, _, acc => acc
  | (i, m) :: rest, prev, rising, acc =>
    if prev < m then peakScan binWidth rest m true acc
    else if rising = true ∧ m < prev then
      let acc2 := acc ++ [((i : ℚ) - 1) * binWidth]
      if 4 ≤ acc2.length then acc2 else peakScan binWidth rest m false acc2
    else peakScan binWidth rest m rising acc

/-- The detected spectral peaks of calculateFormants for the first
frame (at most 2048 samples) of the buffer. -/
noncomputable def formantPeaks (sr : ℕ) (samples : List ℚ) : List ℚ :=
  let frame := samples.take (min 2048 samples.length)
  let magnitudes := formantMagnitudes frame
  let binWidth : ℚ := (sr : ℚ) / 2048
  peakScan binWidth
    ((formantBins sr magnitudes.length).map (fun i => (i, magnitudes.getD i 0)))
    0 false []

/-- The padding loop: while (formants.length < 3) push
500 + formants.length * 1000. -/
def padTo3 (l : List ℚ) : List ℚ :=
  if l.length < 3 then padTo3 (l ++ [500 + (l.length : ℚ) * 1000]) else l
termination_by 3 - l.length
decreasing_by simp; omega

/-- calculateFormants: detected peaks, padded to at least 3 entries,
then sliced to at most 4. -/
noncomputable def calculateFormants (sr : ℕ) (samples : List ℚ) : List ℚ :=
  (padTo3 (formantPeaks sr samples)).take 4

/-! ## Feature record and orchestration (extractFeatures) -/

/-- The VoiceFeatures record assembled by extractFeatures. -/
structure VoiceFeatures where
  pitch : ℚ
  pitchVariation : ℝ
  jitter : ℚ
  shimmer : ℚ
  hnr : ℝ
  duration : ℚ
  amplitude : ℝ
  formants : List ℚ

/-- extractFeatures: run every estimator on the decoded buffer, feeding
the pitch estimate into the jitter estimator; duration is the sample
count over the sample rate. -/
noncomputable def extractFeatures (sr : ℕ) (samples : List ℚ) : VoiceFeatures :=
  let pitch := calculatePitch sr samples
  { pitch := pitch
    pitchVariation := calculatePitchVariation sr samples
    jitter := calculateJitter sr samples pitch
    shimmer := calculateShimmer samples
    hnr := calculateHNR samples
    duration := (samples.length : ℚ) / (sr : ℚ)
    amplitude := calculateAmplitude samples
    formants := calculateFormants sr samples }

/-! ## Helper lemmas -/

theorem pitchFramesAux_stop {samples : List ℚ} {i : ℕ}
    (h : ¬ i + 2048 < samples.length) : pitchFramesAux samples i = [] := by
  rw [pitchFramesAux.eq_def, dif_neg h]

theorem pitchFrames_eq_nil {samples : List ℚ} (h : samples.length ≤ 2048) :
    pitchFrames samples = [] :=
  pitchFramesAux_stop (by omega)

theorem retainedPitches_eq_nil {sr : ℕ} {samples : List ℚ}
    (h : samples.length ≤ 2048) : retainedPitches sr samples = [] := by
  rw [retainedPitches, pitchFrames_eq_nil h]
  rfl

/-- With no surviving estimates the pitch tracker returns 150. -/
theorem calculatePitch_default {sr : ℕ} {samples : List ℚ}
    (h : samples.length ≤ 2048) : calculatePitch sr samples = 150 := by
  rw [calculatePitch, retainedPitches_eq_nil h]
  rfl

/-- With no surviving estimates the variation falls back to 10. -/
theorem calculatePitchVariation_default {sr : ℕ} {samples : List ℚ}
    (h : samples.length ≤ 2048) : calculatePitchVariation sr samples = 10 := by
  rw [calculatePitchVariation, retainedPitches_eq_nil h]
  rfl

/-! ## Pitch tracker claims -/

/-- C5: the pitch returned is the median of the per-frame estimates
retained by the plausibility filter, or the fixed default 150 when no
estimate survives, in particular for every buffer shorter than one
2048-sample frame. -/
theorem pitch_median_or_default (sr : ℕ) (samples : List ℚ) :
    (calculatePitch sr samples =
      if retainedPitches sr samples = [] then 150
      else medianUpper (retainedPitches sr samples)) ∧
    (samples.length < 2048 → calculatePitch sr samples = 150) := by
  constructor
  · by_cases h : retainedPitches sr samples = []
    · rw [if_pos h, calculatePitch, h]
      rfl
    · rw [if_neg h, calculatePitch, medianUpper]
      rw [if_neg (by simpa [List.isEmpty_iff] using h)]
  · intro h
    exact calculatePitch_default (by omega)

/-- Witness for C5 at a concrete 100-sample buffer. -/
theorem pitch_median_or_default_witness :
    (List.replicate 100 (0 : ℚ)).length < 2048 ∧
      calculatePitch 44100 (List.replicate 100 (0 : ℚ)) = 150 :=
  ⟨by simp, (pitch_median_or_default 44100 (List.replicate 100 0)).2 (by simp)⟩

/-- C9: the returned pitch is either the default 150 or lies strictly
between 50 and 500 Hz, because every retained estimate passed the
strict filter and the returned median is one of the retained estimates. -/
theorem pitch_default_or_strictly_in_band (sr : ℕ) (samples : List ℚ) :
    calculatePitch sr samples = 150 ∨
      (50 < calculatePitch sr samples ∧ calculatePitch sr samples < 500) := by
  by_cases h : retainedPitches sr samples = []
  · left
    rw [calculatePitch, h]
    rfl
  · right
    rw [calculatePitch, if_neg (by simpa [List.isEmpty_iff] using h)]
    have hlen : retainedPitches sr samples ≠ [] := h
    have hpos : 0 < (retainedPitches sr samples).length :=
      List.length_pos.mpr hlen
    have hidx : (retainedPitches sr samples).length / 2 <
        (sortAsc (retainedPitches sr samples)).length := by
      rw [sortAsc, List.length_mergeSort]
      omega
    have hmem : (sortAsc (retainedPitches sr samples)).getD
        ((retainedPitches sr samples).length / 2) 0 ∈
        sortAsc (retainedPitches sr samples) := by
      rw [List.getD_eq_getElem _ _ hidx]
      exact List.getElem_mem hidx
    have hmem2 : (sortAsc (retainedPitches sr samples)).getD
        ((retainedPitches sr samples).length / 2) 0 ∈
        retainedPitches sr samples :=
      (List.mergeSort_perm (retainedPitches sr samples) _).mem_iff.mp hmem
    have := List.mem_filter.mp hmem2
    simpa using of_decide_eq_true this.2

/-- C10: a buffer of at most one frame, the 2048-sample boundary case
included, produces zero frames under the strict loop bound, so the
pitch and its variation are the defaults 150 and 10. -/
theorem short_buffer_pitch_defaults (sr : ℕ) (samples : List ℚ)
    (h : samples.length ≤ 2048) :
    calculatePitch sr samples = 150 ∧ calculatePitchVariation sr samples = 10 :=
  ⟨calculatePitch_default h, calculatePitchVariation_default h⟩

/-- Witness for C10 at a buffer of exactly one frame (2048 samples). -/
theorem short_buffer_pitch_defaults_witness :
    (List.replicate 2048 (1 : ℚ)).length ≤ 2048 ∧
      (calculatePitch 48000 (List.replicate 2048 (1 : ℚ)) = 150 ∧
        calculatePitchVariation 48000 (List.replicate 2048 (1 : ℚ)) = 10) :=
  ⟨by simp only [List.length_replicate]; omega, short_buffer_pitch_defaults 48000 _
    (by simp only [List.length_replicate]; omega)⟩

/-! ## HNR claims -/

theorem hnrFramesAux_stop {samples : List ℚ} {i : ℕ}
    (h : ¬ i + 2048 < samples.length) : hnrFramesAux samples i = [] := by
  rw [hnrFramesAux.eq_def, dif_neg h]

theorem hnrFrames_eq_nil {samples : List ℚ} (h : samples.length ≤ 2048) :
    hnrFrames samples = [] :=
  hnrFramesAux_stop (by omega)

theorem hnrTotalNoise_eq_zero {samples : List ℚ} (h : samples.length ≤ 2048) :
    hnrTotalNoise samples = 0 := by
  rw [hnrTotalNoise, hnrFrames_eq_nil h]
  rfl

/-- C4: the returned HNR always lies in [0, 40]; with total noise power
exactly zero (as on any buffer of at most one 2048-sample frame, which
produces no frames) the value is exactly the default 25 rather than a
division by zero, and otherwise it is 10 * log10 of the power ratio
clamped into [0, 40]. -/
theorem hnr_clamped_or_default (samples : List ℚ) :
    (0 ≤ calculateHNR samples ∧ calculateHNR samples ≤ 40) ∧
    (hnrTotalNoise samples = 0 → calculateHNR samples = 25) ∧
    (hnrTotalNoise samples ≠ 0 → calculateHNR samples =
      max 0 (min 40 (10 * Real.logb 10
        ((hnrTotalSignal samples : ℝ) / (hnrTotalNoise samples : ℝ))))) ∧
    (samples.length ≤ 2048 → calculateHNR samples = 25) := by
  refine ⟨?_, fun h => ?_, fun h => ?_, fun h => ?_⟩
  · rw [calculateHNR]
    by_cases h : hnrTotalNoise samples = 0
    · rw [if_pos h]
      norm_num
    · rw [if_neg h]
      exact ⟨le_max_left 0 _, max_le (by norm_num) (min_le_left _ _)⟩
  · rw [calculateHNR, if_pos h]
  · rw [calculateHNR, if_neg h]
  · rw [calculateHNR, if_pos (hnrTotalNoise_eq_zero h)]

/-- Witness for C4 at the empty buffer: no frame is produced, the total
noise power is zero and the HNR is exactly 25. -/
theorem hnr_clamped_or_default_witness :
    hnrTotalNoise ([] : List ℚ) = 0 ∧ calculateHNR ([] : List ℚ) = 25 :=
  ⟨hnrTotalNoise_eq_zero (by simp),
    (hnr_clamped_or_default []).2.1 (hnrTotalNoise_eq_zero (by simp))⟩

/-! ## Jitter claims -/

theorem zcAux_eq_nil_of_nonpos (lo hi : ℚ) (xs : List ℚ) (prev : ℚ)
    (i last : ℕ) (h : ∀ x ∈ xs, x ≤ 0) :
    zcAux lo hi xs prev i last = [] := by
  induction xs generalizing prev i last with
  | nil => rfl
  | cons x xs ih =>
    have hx : x ≤ 0 := h x (by simp)
    have hc : ¬ (prev ≤ 0 ∧ 0 < x) := by
      rintro ⟨-, h0⟩
      exact absurd h0 (not_lt.mpr hx)
    simp only [zcAux, if_neg hc]
    exact ih x (i + 1) last (fun y hy => h y (by simp [hy]))

theorem zcAux_mem_bounds (lo hi : ℚ) (xs : List ℚ) (prev : ℚ)
    (i last : ℕ) (p : ℕ) (hp : p ∈ zcAux lo hi xs prev i last) :
    lo < (p : ℚ) ∧ (p : ℚ) < hi := by
  induction xs generalizing prev i last with
  | nil => simp [zcAux] at hp
  | cons x xs ih =>
    simp only [zcAux] at hp
    by_cases hc : prev ≤ 0 ∧ 0 < x
    · rw [if_pos hc] at hp
      rcases List.mem_append.mp hp with h1 | h2
      · by_cases hacc : 0 < last ∧ lo < ((i - last : ℕ) : ℚ) ∧
            ((i - last : ℕ) : ℚ) < hi
        · rw [if_pos hacc] at h1
          simp only [List.mem_singleton] at h1
          subst h1
          exact hacc.2
        · rw [if_neg hacc] at h1
          simp at h1
      · exact ih _ _ _ h2
    · rw [if_neg hc] at hp
      exact ih _ _ _ hp

theorem jitterPeriods_mem_bounds (sr : ℕ) (pitch : ℚ) (samples : List ℚ)
    (p : ℕ) (hp : p ∈ jitterPeriods sr pitch samples) :
    (expectedPeriod sr pitch : ℚ) * (1/2) < (p : ℚ) ∧
      (p : ℚ) < (expectedPeriod sr pitch : ℚ) * 2 := by
  rw [jitterPeriods.eq_def] at hp
  cases samples with
  | nil => simp at hp
  | cons x xs => exact zcAux_mem_bounds _ _ _ _ _ _ _ hp

/-- C6: the jitter is the mean absolute difference of consecutive
accepted zero-crossing periods over the mean accepted period, times
100, with the default 0.5 below 2 accepted periods, and every accepted
period lies within 0.5 and 2 times the expected period
round(sampleRate / pitch). -/
theorem jitter_formula (sr : ℕ) (samples : List ℚ) (pitch : ℚ) :
    (calculateJitter sr samples pitch =
      if ((jitterPeriods sr pitch samples).map (fun n => (n : ℚ))).length < 2
      then 1/2
      else
        consecAbsDiffs ((jitterPeriods sr pitch samples).map (fun n => (n : ℚ)))
            / ((((jitterPeriods sr pitch samples).map (fun n => (n : ℚ))).length : ℚ) - 1)
          / qMean ((jitterPeriods sr pitch samples).map (fun n => (n : ℚ))) * 100) ∧
    ((jitterPeriods sr pitch samples).all (fun p =>
      decide ((expectedPeriod sr pitch : ℚ) * (1/2) ≤ (p : ℚ) ∧
        (p : ℚ) ≤ (expectedPeriod sr pitch : ℚ) * 2)) = true) := by
  constructor
  · rfl
  · rw [List.all_eq_true]
    intro p hp
    rw [decide_eq_true_iff]
    have := jitterPeriods_mem_bounds sr pitch samples p hp
    exact ⟨le_of_lt this.1, le_of_lt this.2⟩

/-! ## Formant claims -/

theorem padTo3_of_ge {l : List ℚ} (h : 3 ≤ l.length) : padTo3 l = l := by
  rw [padTo3.eq_def, if_neg (by omega)]

theorem padTo3_step {l : List ℚ} (h : l.length < 3) :
    padTo3 l = padTo3 (l ++ [500 + (l.length : ℚ) * 1000]) := by
  conv_lhs => rw [padTo3.eq_def]
  rw [if_pos h]

theorem padTo3_nil : padTo3 ([] : List ℚ) = [500, 1500, 2500] := by
  rw [padTo3_step (by simp)]
  norm_num
  rw [padTo3_step (by simp)]
  norm_num
  rw [padTo3_step (by simp)]
  norm_num
  rw [padTo3_of_ge (by simp)]

theorem padTo3_one (a : ℚ) : padTo3 [a] = [a, 1500, 2500] := by
  rw [padTo3_step (by simp)]
  norm_num
  rw [padTo3_step (by simp)]
  norm_num
  rw [padTo3_of_ge (by simp)]

theorem padTo3_two (a b : ℚ) : padTo3 [a, b] = [a, b, 2500] := by
  rw [padTo3_step (by simp)]
  norm_num
  rw [padTo3_of_ge (by simp)]

theorem padTo3_append_of_lt {l : List ℚ} (h : l.length < 3) :
    padTo3 l = l ++ (List.range (3 - l.length)).map
      (fun k => (500 : ℚ) + ((l.length + k : ℕ) : ℚ) * 1000) := by
  match l, h with
  | [], _ =>
    rw [padTo3_nil]
    norm_num [List.range_succ]
  | [a], _ =>
    rw [padTo3_one]
    norm_num [List.range_succ]
  | [a, b], _ =>
    rw [padTo3_two]
    norm_num [List.range_succ]

theorem padTo3_length_ge3 (l : List ℚ) : 3 ≤ (padTo3 l).length := by
  by_cases h : 3 ≤ l.length
  · rw [padTo3_of_ge h]
    exact h
  · rw [padTo3_append_of_lt (by omega)]
    simp
    omega

/-- On the empty buffer the spectral scan ranges over zero bins and
finds no peak. -/
theorem formantPeaks_nil_44100 : formantPeaks 44100 ([] : List ℚ) = [] := by
  simp [formantPeaks, formantMagnitudes, fft, formantBins, peakScan]

/-- C2 counterexample: the empty buffer yields the fully padded formant
list [500, 1500, 2500], whose length is 3, not 4. -/
theorem formants_empty_buffer_length_three :
    calculateFormants 44100 ([] : List ℚ) = [500, 1500, 2500] ∧
      (calculateFormants 44100 ([] : List ℚ)).length ≠ 4 := by
  have h : calculateFormants 44100 ([] : List ℚ) = [500, 1500, 2500] := by
    rw [calculateFormants, formantPeaks_nil_44100, padTo3_nil]
    simp
  exact ⟨h, by rw [h]; simp⟩

/-- C2 amended: the formant list always has at least 3 and at most 4
entries (padded to 3 with the synthetic defaults, sliced to 4). -/
theorem formants_length_three_or_four (sr : ℕ) (samples : List ℚ) :
    3 ≤ (calculateFormants sr samples).length ∧
      (calculateFormants sr samples).length ≤ 4 := by
  rw [calculateFormants, List.length_take]
  exact ⟨le_min (by norm_num) (padTo3_length_ge3 _), min_le_left _ _⟩

/-- C8: with fewer than 3 detected peaks the formant list is the peaks
followed by the synthetic defaults 500 + 1000 * count up to 3 entries
(in particular zero peaks give [500, 1500, 2500]), and the result is
capped at 4 entries regardless. -/
theorem formants_padding (sr : ℕ) (samples : List ℚ) :
    ((formantPeaks sr samples).length < 3 →
      calculateFormants sr samples =
        formantPeaks sr samples ++
          (List.range (3 - (formantPeaks sr samples).length)).map
            (fun k => (500 : ℚ) +
              (((formantPeaks sr samples).length + k : ℕ) : ℚ) * 1000)) ∧
    (formantPeaks sr samples = [] →
      calculateFormants sr samples = [500, 1500, 2500]) ∧
    (calculateFormants sr samples).length ≤ 4 := by
  refine ⟨fun h => ?_, fun h => ?_, ?_⟩
  · rw [calculateFormants, padTo3_append_of_lt h]
    apply List.take_of_length_le
    simp
    omega
  · rw [calculateFormants, h, padTo3_nil]
    simp
  · rw [calculateFormants, List.length_take]
    exact min_le_left _ _

/-- Witness for C8 at the empty buffer: zero detected peaks, all three
padding slots filled by the synthetic rule. -/
theorem formants_padding_witness :
    calculateFormants 44100 ([] : List ℚ) = [500, 1500, 2500] ∧
      (calculateFormants 44100 ([] : List ℚ)).length ≤ 4 :=
  ⟨(formants_padding 44100 []).2.1 formantPeaks_nil_44100,
    (formants_padding 44100 []).2.2⟩

/-! ## Determinism claim -/

/-- C7: the extractor is a pure function of the decoded buffer and the
sample rate; identical inputs give identical feature records, with no
randomness or hidden state anywhere in the pipeline. -/
theorem extractFeatures_deterministic (sr1 sr2 : ℕ) (s1 s2 : List ℚ)
    (hs : s1 = s2) (hr : sr1 = sr2) :
    extractFeatures sr1 s1 = extractFeatures sr2 s2 := by
  subst hs
  subst hr
  rfl

/-- Witness for C7 at a concrete two-sample buffer. -/
theorem extractFeatures_deterministic_witness :
    extractFeatures 44100 [1, -1] = extractFeatures 44100 [1, -1] :=
  extractFeatures_deterministic 44100 44100 [1, -1] [1, -1] rfl rfl

/-! ## Silent and empty buffer evaluations -/

theorem foldl_sq_replicate_zero (n : ℕ) (a : ℚ) :
    (List.replicate n (0 : ℚ)).foldl (fun a x => a + x * x) a = a := by
  induction n generalizing a with
  | zero => rfl
  | succ k ih =>
    rw [List.replicate_succ, List.foldl_cons]
    simpa using ih a

theorem sumSq_replicate_zero (n : ℕ) : sumSq (List.replicate n 0) = 0 :=
  foldl_sq_replicate_zero n 0

theorem foldl_max_replicate_zero (n : ℕ) (m : ℚ) (hm : 0 ≤ m) :
    (List.replicate n (0 : ℚ)).foldl (fun m x => max m |x|) m = m := by
  induction n generalizing m with
  | zero => rfl
  | succ k ih =>
    rw [List.replicate_succ, List.foldl_cons]
    simpa [max_eq_left hm] using ih m hm

theorem framePeak_replicate_zero (n : ℕ) :
    framePeak (List.replicate n 0) = 0 :=
  foldl_max_replicate_zero n 0 le_rfl

theorem shimmerFramesAux_step {samples : List ℚ} {i : ℕ}
    (h : i + 512 < samples.length) :
    shimmerFramesAux samples i =
      sliceFrame samples i 512 :: shimmerFramesAux samples (i + 512) := by
  rw [shimmerFramesAux.eq_def, dif_pos h]

theorem shimmerFramesAux_stop {samples : List ℚ} {i : ℕ}
    (h : ¬ i + 512 < samples.length) : shimmerFramesAux samples i = [] := by
  rw [shimmerFramesAux.eq_def, dif_neg h]

theorem shimmerFrames_silent2048 :
    shimmerFrames (List.replicate 2048 (0 : ℚ)) =
      [List.replicate 512 0, List.replicate 512 0, List.replicate 512 0] := by
  have hlen : (List.replicate 2048 (0 : ℚ)).length = 2048 := by
    simp only [List.length_replicate]
  rw [shimmerFrames,
    shimmerFramesAux_step (by rw [hlen]; omega),
    shimmerFramesAux_step (by rw [hlen]; omega),
    shimmerFramesAux_step (by rw [hlen]; omega),
    shimmerFramesAux_stop (by rw [hlen]; omega)]
  norm_num [sliceFrame, List.drop_replicate, List.take_replicate]

theorem shimmerAmplitudes_silent2048 :
    shimmerAmplitudes (List.replicate 2048 (0 : ℚ)) = [0, 0, 0] := by
  rw [shimmerAmplitudes, shimmerFrames_silent2048]
  simp only [List.map_cons, List.map_nil, framePeak_replicate_zero]

theorem shimmerFrames_silent1025 :
    shimmerFrames (List.replicate 1025 (0 : ℚ)) =
      [List.replicate 512 0, List.replicate 512 0] := by
  have hlen : (List.replicate 1025 (0 : ℚ)).length = 1025 := by
    simp only [List.length_replicate]
  rw [shimmerFrames,
    shimmerFramesAux_step (by rw [hlen]; omega),
    shimmerFramesAux_step (by rw [hlen]; omega),
    shimmerFramesAux_stop (by rw [hlen]; omega)]
  norm_num [sliceFrame, List.drop_replicate, List.take_replicate]

theorem shimmerAmplitudes_silent1025 :
    shimmerAmplitudes (List.replicate 1025 (0 : ℚ)) = [0, 0] := by
  rw [shimmerAmplitudes, shimmerFrames_silent1025]
  simp only [List.map_cons, List.map_nil, framePeak_replicate_zero]

theorem extractFeatures_pitch (sr : ℕ) (s : List ℚ) :
    (extractFeatures sr s).pitch = calculatePitch sr s := rfl

theorem extractFeatures_pitchVariation (sr : ℕ) (s : List ℚ) :
    (extractFeatures sr s).pitchVariation = calculatePitchVariation sr s := rfl

theorem extractFeatures_jitter (sr : ℕ) (s : List ℚ) :
    (extractFeatures sr s).jitter = calculateJitter sr s (calculatePitch sr s) := rfl

theorem extractFeatures_shimmer (sr : ℕ) (s : List ℚ) :
    (extractFeatures sr s).shimmer = calculateShimmer s := rfl

theorem extractFeatures_hnr (sr : ℕ) (s : List ℚ) :
    (extractFeatures sr s).hnr = calculateHNR s := rfl

theorem extractFeatures_amplitude (sr : ℕ) (s : List ℚ) :
    (extractFeatures sr s).amplitude = calculateAmplitude s := rfl

theorem jitterPeriods_silent2048 (sr : ℕ) (pitch : ℚ) :
    jitterPeriods sr pitch (List.replicate 2048 (0 : ℚ)) = [] := by
  rw [show (2048 : ℕ) = 2047 + 1 by norm_num, List.replicate_succ,
    jitterPeriods.eq_def]
  exact zcAux_eq_nil_of_nonpos _ _ _ _ _ _
    (fun y hy => le_of_eq (List.eq_of_mem_replicate hy))

theorem calculateJitter_silent2048 (sr : ℕ) (pitch : ℚ) :
    calculateJitter sr (List.replicate 2048 (0 : ℚ)) pitch = 1/2 := by
  simp only [calculateJitter, jitterPeriods_silent2048, List.map_nil,
    List.length_nil]
  norm_num

theorem calculateAmplitude_silent (n : ℕ) :
    calculateAmplitude (List.replicate n (0 : ℚ)) = 0 := by
  rw [calculateAmplitude, sumSq_replicate_zero]
  simp

/-- C3 (code-bug evaluation): on the all-zero buffer of exactly one
2048-sample frame the pitch, pitch variation, jitter, HNR and amplitude
all take the claimed values, but shimmer does not fall back to 3: the
guard sees three all-zero frames while the mean peak amplitude is 0, so
the source divides zero by zero (NaN in JavaScript, junk 0 in this
embedding), never the default 3. -/
theorem silent_buffer_features :
    (extractFeatures 44100 (List.replicate 2048 0)).pitch = 150 ∧
    (extractFeatures 44100 (List.replicate 2048 0)).pitchVariation = 10 ∧
    (extractFeatures 44100 (List.replicate 2048 0)).jitter = 1/2 ∧
    (extractFeatures 44100 (List.replicate 2048 0)).hnr = 25 ∧
    (extractFeatures 44100 (List.replicate 2048 0)).amplitude = 0 ∧
    shimmerAmplitudes (List.replicate 2048 0) = [0, 0, 0] ∧
    ¬ ((shimmerAmplitudes (List.replicate 2048 0)).length < 2) ∧
    qMean (shimmerAmplitudes (List.replicate 2048 0)) = 0 ∧
    (extractFeatures 44100 (List.replicate 2048 0)).shimmer ≠ 3 := by
  have hlen : (List.replicate 2048 (0 : ℚ)).length ≤ 2048 := by
    simp only [List.length_replicate]
    omega
  have hsh : calculateShimmer (List.replicate 2048 (0 : ℚ)) = 0 := by
    simp only [calculateShimmer, shimmerAmplitudes_silent2048]
    norm_num [consecAbsDiffs, qMean, qSum]
  refine ⟨?_, ?_, ?_, ?_, ?_, ?_, ?_, ?_, ?_⟩
  · rw [extractFeatures_pitch]
    exact calculatePitch_default hlen
  · rw [extractFeatures_pitchVariation]
    exact calculatePitchVariation_default hlen
  · rw [extractFeatures_jitter]
    exact calculateJitter_silent2048 44100 _
  · rw [extractFeatures_hnr, calculateHNR, if_pos (hnrTotalNoise_eq_zero hlen)]
  · rw [extractFeatures_amplitude]
    exact calculateAmplitude_silent 2048
  · exact shimmerAmplitudes_silent2048
  · rw [shimmerAmplitudes_silent2048]
    norm_num
  · rw [shimmerAmplitudes_silent2048]
    norm_num [qMean, qSum]
  · rw [extractFeatures_shimmer, hsh]
    norm_num

/-- C1 (code-bug evaluation): the never-NaN policy fails on two inputs.
On an all-zero 1025-sample buffer the shimmer guard sees two frames and
the mean peak amplitude is 0, so the source divides zero by zero; on
the empty buffer calculateAmplitude divides the zero sum of squares by
the zero length.  Both are NaN in JavaScript. -/
theorem shimmer_and_amplitude_divide_by_zero :
    shimmerAmplitudes (List.replicate 1025 0) = [0, 0] ∧
    ¬ ((shimmerAmplitudes (List.replicate 1025 0)).length < 2) ∧
    qMean (shimmerAmplitudes (List.replicate 1025 0)) = 0 ∧
    sumSq ([] : List ℚ) = 0 ∧ (([] : List ℚ).length : ℚ) = 0 := by
  refine ⟨shimmerAmplitudes_silent1025, ?_, ?_, rfl, rfl⟩
  · rw [shimmerAmplitudes_silent1025]
    norm_num
  · rw [shimmerAmplitudes_silent1025]
    norm_num [qMean, qSum]

end DSP
